import Mathlib

/-!
# Verification of the journal-ai provider abstraction and generation pipeline

Shallow embedding of the journal-ai repository (Rust) in Lean 4.

Strings are modelled as `List Char`.  Rust's `str::to_lowercase` is modelled by
`Char.toLower` applied characterwise; this agrees with Rust on the basic-latin
range, which is all the sanitizer's character set interacts with (none of the
replaced characters, nor `.md`, is affected by Unicode case mapping).
-/

namespace JournalAi

/-- `'\'` (backslash), written by code point to keep the source plain ASCII. -/
def bsChar : Char := Char.ofNat 92

/-- `'"'` (double quote), written by code point. -/
def dqChar : Char := Char.ofNat 34

/-- `'''` (single quote), written by code point. -/
def sqChar : Char := Char.ofNat 39

/-- The characters `sanitize_title` replaces with `'-'`
(src/providers/mod.rs lines 26-36): space, `/`, backslash, `:`, `?`, `*`,
double quote, single quote, `<`, `>`, `|`. -/
def forbidden : List Char := [' ', '/', bsChar, ':', '?', '*', dqChar, sqChar, '<', '>', '|']

/-- Rust `str::replace(old, "-")` for a single-character pattern:
replace every occurrence of `old` by `'-'`. -/
def replaceChar (old : Char) (s : List Char) : List Char :=
  s.map fun c => if c = old then '-' else c

/-- The chain of `.replace(…, "-")` calls of `sanitize_title`
(src/providers/mod.rs lines 25-36), innermost first: space, `/`, backslash,
`:`, `?`, `*`, double quote, single quote, `<`, `>`, `|`. -/
def replacePhase (s : List Char) : List Char :=
  replaceChar '|'
    (replaceChar '>'
      (replaceChar '<'
        (replaceChar sqChar
          (replaceChar dqChar
            (replaceChar '*'
              (replaceChar '?'
                (replaceChar ':'
                  (replaceChar bsChar
                    (replaceChar '/'
                      (replaceChar ' ' s))))))))))

/-- One pass of Rust `str::replace("--", "-")`: scan left to right, replacing
non-overlapping occurrences of two hyphens by one. -/
def collapseOnce : List Char → List Char
  | c1 :: c2 :: t =>
    if c1 = '-' ∧ c2 = '-' then '-' :: collapseOnce t
    else c1 :: collapseOnce (c2 :: t)
  | l => l

/-- Rust `str::contains("--")`. -/
def hasDouble : List Char → Bool
  | c1 :: c2 :: t => if c1 = '-' ∧ c2 = '-' then true else hasDouble (c2 :: t)
  | _ => false

/-- The `while safe.contains("--")` loop of `sanitize_title`
(src/providers/mod.rs lines 40-42), with explicit fuel.  Each iteration on a
string containing `"--"` strictly shrinks it, so fuel `s.length` (as used by
`collapseHyphens`) always suffices to reach the loop's fixpoint. -/
def collapseLoop : Nat → List Char → List Char
  | 0, s => s
  | n + 1, s => if hasDouble s then collapseLoop n (collapseOnce s) else s

/-- The hyphen-collapsing loop of `sanitize_title`, run to its fixpoint. -/
def collapseHyphens (s : List Char) : List Char :=
  collapseLoop s.length s

/-- Rust `str::trim_end_matches('-')`: drop every trailing `'-'`. -/
def trimEndHyphens (l : List Char) : List Char :=
  (l.reverse.dropWhile fun c => c = '-').reverse

/-- Rust `char::is_whitespace` (the Unicode White_Space property). -/
def wsCharB (c : Char) : Bool :=
  (9 ≤ c.toNat && c.toNat ≤ 13) || c.toNat = 32 || c.toNat = 133 || c.toNat = 160 ||
    c.toNat = 5760 || (8192 ≤ c.toNat && c.toNat ≤ 8202) || c.toNat = 8232 ||
    c.toNat = 8233 || c.toNat = 8239 || c.toNat = 8287 || c.toNat = 12288

/-- Rust `str::trim()`: drop leading and trailing whitespace. -/
def rustTrim (l : List Char) : List Char :=
  ((l.dropWhile wsCharB).reverse.dropWhile wsCharB).reverse

/-- The fixed `".md"` extension. -/
def mdSuffix : List Char := ['.', 'm', 'd']

/-- Rust `str::ends_with(".md")`. -/
def endsWithMd (l : List Char) : Bool := mdSuffix.isSuffixOf l

/-- The value of the local `safe` in `sanitize_title` just before the final
extension check (src/providers/mod.rs lines 25-45): replacements, lowercase,
hyphen collapsing, then `trim_end_matches('-').trim()`. -/
def preExtension (s : List Char) : List Char :=
  rustTrim (trimEndHyphens (collapseHyphens ((replacePhase s).map Char.toLower)))

/-- `sanitize_title` (src/providers/mod.rs lines 24-53): replace the unsafe
characters by hyphens, lowercase, collapse runs of hyphens, trim a trailing
hyphen and surrounding whitespace, and append `".md"` unless already present. -/
def sanitize_title (s : List Char) : List Char :=
  if endsWithMd (preExtension s) then preExtension s else preExtension s ++ mdSuffix

/-! ## Character-level lemmas -/

lemma toNat_toLower_of_upper {c : Char} (h : 65 ≤ c.toNat ∧ c.toNat ≤ 90) :
    (Char.toLower c).toNat = c.toNat + 32 := by
  have hv : (c.toNat + 32).isValidChar := Or.inl (by omega)
  unfold Char.toLower
  rw [if_pos h, Char.ofNat, dif_pos hv]
  simp [Char.ofNatAux, Char.toNat, UInt32.toNat]

lemma toLower_of_not_upper {c : Char} (h : ¬(65 ≤ c.toNat ∧ c.toNat ≤ 90)) :
    Char.toLower c = c := by
  unfold Char.toLower
  rw [if_neg h]

lemma toLower_idem (c : Char) : Char.toLower (Char.toLower c) = Char.toLower c := by
  by_cases h : 65 ≤ c.toNat ∧ c.toNat ≤ 90
  · have h1 := toNat_toLower_of_upper h
    exact toLower_of_not_upper (by omega)
  · rw [toLower_of_not_upper h]; exact toLower_of_not_upper h

lemma forbidden_toNat : ∀ x ∈ forbidden,
    x.toNat = 32 ∨ x.toNat = 47 ∨ x.toNat = 92 ∨ x.toNat = 58 ∨ x.toNat = 63 ∨
      x.toNat = 42 ∨ x.toNat = 34 ∨ x.toNat = 39 ∨ x.toNat = 60 ∨ x.toNat = 62 ∨
      x.toNat = 124 := by decide

lemma toLower_notMem_forbidden {c : Char} (h : c ∉ forbidden) :
    Char.toLower c ∉ forbidden := by
  by_cases hu : 65 ≤ c.toNat ∧ c.toNat ≤ 90
  · have h1 := toNat_toLower_of_upper hu
    intro hmem
    have h2 := forbidden_toNat _ hmem
    omega
  · rw [toLower_of_not_upper hu]; exact h

/-- The characters of the replacement-and-lowercase phase: never forbidden and
fixed by `Char.toLower`. -/
def keptChar (c : Char) : Prop := c ∉ forbidden ∧ Char.toLower c = c

lemma keptChar_md : ∀ c ∈ mdSuffix, keptChar c := by
  intro c hc
  rcases hc with _|⟨_,_|⟨_,_|⟨_,h⟩⟩⟩ <;> first
    | exact ⟨by decide, by decide⟩
    | cases h

/-! ## The replacement phase: character tracking -/

lemma mem_replaceChar {a old : Char} {s : List Char} (h : a ∈ replaceChar old s) :
    a = '-' ∨ (a ∈ s ∧ a ≠ old) := by
  obtain ⟨b, hb, rfl⟩ := List.mem_map.mp h
  by_cases hbo : b = old
  · rw [if_pos hbo]; exact Or.inl rfl
  · rw [if_neg hbo]; exact Or.inr ⟨hb, hbo⟩

lemma replacePhase_chars {s : List Char} {a : Char} (h : a ∈ replacePhase s) :
    a ∉ forbidden := by
  unfold replacePhase at h
  rcases mem_replaceChar h with rfl | ⟨h, hne1⟩; · decide
  rcases mem_replaceChar h with rfl | ⟨h, hne2⟩; · decide
  rcases mem_replaceChar h with rfl | ⟨h, hne3⟩; · decide
  rcases mem_replaceChar h with rfl | ⟨h, hne4⟩; · decide
  rcases mem_replaceChar h with rfl | ⟨h, hne5⟩; · decide
  rcases mem_replaceChar h with rfl | ⟨h, hne6⟩; · decide
  rcases mem_replaceChar h with rfl | ⟨h, hne7⟩; · decide
  rcases mem_replaceChar h with rfl | ⟨h, hne8⟩; · decide
  rcases mem_replaceChar h with rfl | ⟨h, hne9⟩; · decide
  rcases mem_replaceChar h with rfl | ⟨h, hne10⟩; · decide
  rcases mem_replaceChar h with rfl | ⟨h, hne11⟩; · decide
  simp only [forbidden, List.mem_cons, List.not_mem_nil, or_false]
  push_neg
  exact ⟨hne11, hne10, hne9, hne8, hne7, hne6, hne5, hne4, hne3, hne2, hne1⟩

lemma mem_mapped {s : List Char} {a : Char}
    (h : a ∈ (replacePhase s).map Char.toLower) : keptChar a := by
  obtain ⟨b, hb, rfl⟩ := List.mem_map.mp h
  exact ⟨toLower_notMem_forbidden (replacePhase_chars hb), toLower_idem b⟩

lemma replaceChar_eq_self {old : Char} {s : List Char} (h : ∀ a ∈ s, a ≠ old) :
    replaceChar old s = s := by
  unfold replaceChar
  calc s.map (fun c => if c = old then '-' else c)
      = s.map id := List.map_congr_left (fun a ha => if_neg (h a ha))
    _ = s := List.map_id s

lemma replacePhase_eq_self {s : List Char} (h : ∀ a ∈ s, a ∉ forbidden) :
    replacePhase s = s := by
  have ne : ∀ x, x ∈ forbidden → ∀ a ∈ s, a ≠ x := by
    intro x hx a ha he
    exact h a ha (he ▸ hx)
  unfold replacePhase
  rw [replaceChar_eq_self (ne ' ' (by decide)),
    replaceChar_eq_self (ne '/' (by decide)),
    replaceChar_eq_self (ne bsChar (by decide)),
    replaceChar_eq_self (ne ':' (by decide)),
    replaceChar_eq_self (ne '?' (by decide)),
    replaceChar_eq_self (ne '*' (by decide)),
    replaceChar_eq_self (ne dqChar (by decide)),
    replaceChar_eq_self (ne sqChar (by decide)),
    replaceChar_eq_self (ne '<' (by decide)),
    replaceChar_eq_self (ne '>' (by decide)),
    replaceChar_eq_self (ne '|' (by decide))]

lemma map_toLower_eq_self {s : List Char} (h : ∀ a ∈ s, Char.toLower a = a) :
    s.map Char.toLower = s := by
  calc s.map Char.toLower = s.map id := List.map_congr_left (fun a ha => h a ha)
    _ = s := List.map_id s

/-! ## Hyphen collapsing -/

lemma collapseOnce_length_le : ∀ l : List Char, (collapseOnce l).length ≤ l.length
  | [] => Nat.le_refl _
  | [c] => Nat.le_refl _
  | c1 :: c2 :: t => by
    rw [collapseOnce]
    split
    · have := collapseOnce_length_le t
      simp only [List.length_cons]
      omega
    · have := collapseOnce_length_le (c2 :: t)
      simp only [List.length_cons] at *
      omega

lemma collapseOnce_length_lt :
    ∀ l : List Char, hasDouble l = true → (collapseOnce l).length < l.length
  | [], h => by simp [hasDouble] at h
  | [c], h => by simp [hasDouble] at h
  | c1 :: c2 :: t, h => by
    rw [collapseOnce]
    rw [hasDouble] at h
    split
    · have := collapseOnce_length_le t
      simp only [List.length_cons]
      omega
    · rename_i hc
      rw [if_neg hc] at h
      have := collapseOnce_length_lt (c2 :: t) h
      simp only [List.length_cons] at *
      omega

lemma mem_of_mem_collapseOnce : ∀ (l : List Char) (a : Char), a ∈ collapseOnce l → a ∈ l
  | [], _, h => h
  | [c], _, h => h
  | c1 :: c2 :: t, a, h => by
    rw [collapseOnce] at h
    split at h
    · rename_i hc
      rcases List.mem_cons.mp h with rfl | h'
      · exact List.mem_cons.mpr (Or.inl hc.1.symm)
      · exact List.mem_cons_of_mem _ (List.mem_cons_of_mem _ (mem_of_mem_collapseOnce t a h'))
    · rcases List.mem_cons.mp h with rfl | h'
      · exact List.mem_cons_self _ _
      · exact List.mem_cons_of_mem _ (mem_of_mem_collapseOnce (c2 :: t) a h')

lemma mem_of_mem_collapseLoop :
    ∀ (n : Nat) (l : List Char) (a : Char), a ∈ collapseLoop n l → a ∈ l
  | 0, _, _, h => h
  | n + 1, l, a, h => by
    rw [collapseLoop] at h
    split at h
    · exact mem_of_mem_collapseOnce l a (mem_of_mem_collapseLoop n (collapseOnce l) a h)
    · exact h

lemma collapseLoop_noDouble :
    ∀ (n : Nat) (l : List Char), l.length ≤ n → hasDouble (collapseLoop n l) = false
  | 0, l, h => by
    have : l = [] := List.eq_nil_of_length_eq_zero (Nat.le_zero.mp h)
    subst this
    rfl
  | n + 1, l, h => by
    rw [collapseLoop]
    split
    · rename_i hd
      exact collapseLoop_noDouble n (collapseOnce l)
        (by have := collapseOnce_length_lt l hd; omega)
    · rename_i hd
      exact Bool.not_eq_true _ ▸ (Bool.of_not_eq_true hd)

lemma mem_of_mem_collapseHyphens {l : List Char} {a : Char}
    (h : a ∈ collapseHyphens l) : a ∈ l :=
  mem_of_mem_collapseLoop _ _ _ h

lemma collapseHyphens_noDouble (l : List Char) : hasDouble (collapseHyphens l) = false :=
  collapseLoop_noDouble _ _ (Nat.le_refl _)

/-- Adjacent-pair relation: "not two hyphens in a row". -/
def noDH (a b : Char) : Prop := ¬(a = '-' ∧ b = '-')

lemma hasDouble_eq_false_iff : ∀ l : List Char, hasDouble l = false ↔ l.Chain' noDH
  | [] => by simp [hasDouble]
  | [c] => by simp [hasDouble]
  | c1 :: c2 :: t => by
    rw [hasDouble, List.chain'_cons, ← hasDouble_eq_false_iff (c2 :: t)]
    by_cases hc : c1 = '-' ∧ c2 = '-'
    · rw [if_pos hc]
      simp [noDH, hc]
    · rw [if_neg hc]
      simp [noDH, hc]

/-! ## Trimming -/

lemma mem_of_mem_trimEndHyphens {l : List Char} {a : Char}
    (h : a ∈ trimEndHyphens l) : a ∈ l := by
  unfold trimEndHyphens at h
  rw [List.mem_reverse] at h
  have := (List.dropWhile_suffix (fun c : Char => decide (c = '-'))).subset h
  exact List.mem_reverse.mp this

lemma trimEndHyphens_isPrefix (l : List Char) : trimEndHyphens l <+: l := by
  unfold trimEndHyphens
  rw [← List.reverse_suffix, List.reverse_reverse]
  exact List.dropWhile_suffix _

lemma mem_of_mem_rustTrim {l : List Char} {a : Char} (h : a ∈ rustTrim l) : a ∈ l := by
  unfold rustTrim at h
  rw [List.mem_reverse] at h
  have h2 := (List.dropWhile_suffix wsCharB).subset h
  rw [List.mem_reverse] at h2
  exact (List.dropWhile_suffix wsCharB).subset h2

lemma rustTrim_isInfix (l : List Char) : rustTrim l <:+: l := by
  unfold rustTrim
  have h1 : l.dropWhile wsCharB <:+ l := List.dropWhile_suffix _
  have h2 : ((l.dropWhile wsCharB).reverse.dropWhile wsCharB).reverse <+:
      l.dropWhile wsCharB := by
    rw [← List.reverse_suffix, List.reverse_reverse]
    exact List.dropWhile_suffix _
  obtain ⟨u, hu⟩ := h1
  obtain ⟨v, hv⟩ := h2
  exact ⟨u, v, by rw [List.append_assoc, hv, hu]⟩

lemma isInfix_trans_isPrefix {α : Type} {l₁ l₂ l₃ : List α}
    (h1 : l₁ <:+: l₂) (h2 : l₂ <+: l₃) : l₁ <:+: l₃ := by
  obtain ⟨u, v, huv⟩ := h1
  obtain ⟨w, hw⟩ := h2
  exact ⟨u, v ++ w, by rw [← List.append_assoc, huv, hw]⟩

/-- The trimmed stage is an infix of the collapsed stage. -/
lemma trimmed_isInfix (l : List Char) : rustTrim (trimEndHyphens l) <:+: l :=
  isInfix_trans_isPrefix (rustTrim_isInfix _) (trimEndHyphens_isPrefix l)

/-! ## Structural facts about the sanitizer output -/

lemma preExtension_chars (s : List Char) : ∀ a ∈ preExtension s, keptChar a :=
  fun _ ha =>
    mem_mapped (mem_of_mem_collapseHyphens (mem_of_mem_trimEndHyphens (mem_of_mem_rustTrim ha)))

lemma noDouble_of_infix {l₁ l₂ : List Char} (hi : l₁ <:+: l₂)
    (h : hasDouble l₂ = false) : hasDouble l₁ = false := by
  rw [hasDouble_eq_false_iff] at h ⊢
  exact h.infix hi

lemma preExtension_noDouble (s : List Char) : hasDouble (preExtension s) = false := by
  unfold preExtension
  exact noDouble_of_infix (trimmed_isInfix _)
    (collapseHyphens_noDouble ((replacePhase s).map Char.toLower))

lemma preExtension_head {s : List Char} {c : Char} {r : List Char}
    (he : preExtension s = c :: r) : wsCharB c = false := by
  unfold preExtension rustTrim at he
  have hXpre :
      (((trimEndHyphens (collapseHyphens ((replacePhase s).map Char.toLower))).dropWhile
          wsCharB).reverse.dropWhile wsCharB).reverse <+:
        (trimEndHyphens (collapseHyphens ((replacePhase s).map Char.toLower))).dropWhile
          wsCharB := by
    rw [← List.reverse_suffix, List.reverse_reverse]
    exact List.dropWhile_suffix _
  rw [he] at hXpre
  have hm : (trimEndHyphens (collapseHyphens ((replacePhase s).map Char.toLower))).dropWhile
      wsCharB ≠ [] :=
    hXpre.ne_nil (by simp)
  have hhead := hXpre.head (by simp)
  have hws := List.head_dropWhile_not wsCharB
    (trimEndHyphens (collapseHyphens ((replacePhase s).map Char.toLower))) hm
  rw [← hhead] at hws
  simpa using hws

lemma sanitize_endsWith (s : List Char) : ∃ pre, sanitize_title s = pre ++ mdSuffix := by
  unfold sanitize_title
  split
  · rename_i h
    rw [endsWithMd, List.isSuffixOf_iff_suffix] at h
    obtain ⟨pre, hp⟩ := h
    exact ⟨pre, hp.symm⟩
  · exact ⟨preExtension s, rfl⟩

lemma sanitize_chars (s : List Char) : ∀ a ∈ sanitize_title s, keptChar a := by
  intro a ha
  unfold sanitize_title at ha
  split at ha
  · exact preExtension_chars s a ha
  · rcases List.mem_append.mp ha with h | h
    · exact preExtension_chars s a h
    · exact keptChar_md a h

lemma chain_md : List.Chain' noDH mdSuffix := by
  refine List.chain'_cons.mpr ⟨?_, List.chain'_cons.mpr ⟨?_, List.chain'_singleton _⟩⟩ <;>
    · intro hc
      exact absurd hc.1 (by decide)

lemma noDouble_append_md {l : List Char} (h : hasDouble l = false) :
    hasDouble (l ++ mdSuffix) = false := by
  rw [hasDouble_eq_false_iff] at h ⊢
  rw [List.chain'_append]
  refine ⟨h, chain_md, ?_⟩
  intro x _ y hy
  simp only [mdSuffix, List.head?_cons, Option.mem_def, Option.some.injEq] at hy
  subst hy
  intro hc
  exact absurd hc.2 (by decide)

lemma sanitize_noDouble (s : List Char) : hasDouble (sanitize_title s) = false := by
  unfold sanitize_title
  split
  · exact preExtension_noDouble s
  · exact noDouble_append_md (preExtension_noDouble s)

lemma sanitize_head {s : List Char} {c : Char} {r : List Char}
    (he : sanitize_title s = c :: r) : wsCharB c = false := by
  unfold sanitize_title at he
  split at he
  · exact preExtension_head he
  · generalize hpe : preExtension s = pe at he
    cases pe with
    | nil =>
      rw [List.nil_append] at he
      have hcd : c = '.' := by
        have := congrArg List.head? he
        simpa [mdSuffix] using this.symm
      rw [hcd]
      decide
    | cons b t =>
      rw [List.cons_append] at he
      have hbc : b = c := (List.cons.injEq _ _ _ _ ▸ he).1
      exact hbc ▸ preExtension_head hpe

/-! ## A sanitized string is a fixpoint of every stage -/

lemma collapseLoop_eq_self {l : List Char} (h : hasDouble l = false) :
    ∀ n, collapseLoop n l = l
  | 0 => rfl
  | n + 1 => by rw [collapseLoop, h]; simp

lemma collapseHyphens_eq_self {l : List Char} (h : hasDouble l = false) :
    collapseHyphens l = l :=
  collapseLoop_eq_self h _

lemma dropWhile_eq_self_of_head {p : Char → Bool} {l : List Char}
    (h : ∀ c t, l = c :: t → p c = false) : l.dropWhile p = l := by
  cases l with
  | nil => rfl
  | cons c t => rw [List.dropWhile_cons, h c t rfl]; simp

lemma trimEndHyphens_append_md (pre : List Char) :
    trimEndHyphens (pre ++ mdSuffix) = pre ++ mdSuffix := by
  unfold trimEndHyphens
  rw [show (pre ++ mdSuffix).reverse = 'd' :: 'm' :: '.' :: pre.reverse by simp [mdSuffix]]
  rw [List.dropWhile_cons]
  simp [mdSuffix]

lemma rustTrim_eq_self {l : List Char}
    (hhead : ∀ c t, l = c :: t → wsCharB c = false)
    (hlast : ∀ c t, l.reverse = c :: t → wsCharB c = false) : rustTrim l = l := by
  unfold rustTrim
  rw [dropWhile_eq_self_of_head hhead, dropWhile_eq_self_of_head hlast,
    List.reverse_reverse]

lemma endsWithMd_append (pre : List Char) : endsWithMd (pre ++ mdSuffix) = true := by
  simp [endsWithMd]

lemma preExtension_def (s : List Char) :
    preExtension s =
      rustTrim (trimEndHyphens (collapseHyphens ((replacePhase s).map Char.toLower))) := rfl

lemma sanitize_title_def (s : List Char) :
    sanitize_title s =
      if endsWithMd (preExtension s) then preExtension s else preExtension s ++ mdSuffix := rfl

lemma sanitize_fixpoint (s : List Char) :
    preExtension (sanitize_title s) = sanitize_title s ∧
      endsWithMd (sanitize_title s) = true := by
  obtain ⟨pre, hpre⟩ := sanitize_endsWith s
  have hchars := sanitize_chars s
  have h1 : replacePhase (sanitize_title s) = sanitize_title s :=
    replacePhase_eq_self (fun a ha => (hchars a ha).1)
  have h2 : (sanitize_title s).map Char.toLower = sanitize_title s :=
    map_toLower_eq_self (fun a ha => (hchars a ha).2)
  have h3 : collapseHyphens (sanitize_title s) = sanitize_title s :=
    collapseHyphens_eq_self (sanitize_noDouble s)
  have h4 : trimEndHyphens (sanitize_title s) = sanitize_title s := by
    rw [hpre]; exact trimEndHyphens_append_md pre
  have h5 : rustTrim (sanitize_title s) = sanitize_title s := by
    refine rustTrim_eq_self (fun c t he => sanitize_head he) (fun c t he => ?_)
    have hrev : (sanitize_title s).reverse = 'd' :: 'm' :: '.' :: pre.reverse := by
      rw [hpre]; simp [mdSuffix]
    rw [hrev] at he
    have hcd : c = 'd' := (List.cons.injEq _ _ _ _ ▸ he).1.symm
    rw [hcd]
    decide
  constructor
  · rw [preExtension_def, h1, h2, h3, h4, h5]
  · rw [hpre]; exact endsWithMd_append pre

/-! ## Claim theorems about the sanitizer -/

/-- C2, counterexample: the claim says the output of `sanitize_title` never
ends with `".md.md"`, but on input `".md.md"` the code performs no replacement,
finds `".md"` already present, and returns the input unchanged — an output that
does end with `".md.md"`. -/
theorem C2_counterexample :
    sanitize_title ".md.md".toList = ".md.md".toList ∧
      (mdSuffix ++ mdSuffix) <:+ sanitize_title ".md.md".toList := by
  constructor
  · decide
  · decide

/-- C2 (amended): for every input string, the output of `sanitize_title` ends
with the extension `".md"` (though not necessarily exactly once: an input
already ending in `".md.md"` is returned unchanged) and contains no space
character and none of the path/glob/quote special characters
`/ \ : ? * " ' < > |`. -/
theorem C2_sanitized_shape (s : List Char) :
    endsWithMd (sanitize_title s) = true ∧ ∀ a ∈ sanitize_title s, a ∉ forbidden :=
  ⟨(sanitize_fixpoint s).2, fun a ha => (sanitize_chars s a ha).1⟩

/-- C3: `sanitize_title` is idempotent — sanitizing an already-sanitized title
returns it unchanged, for every input string. -/
theorem C3_sanitize_title_idempotent (s : List Char) :
    sanitize_title (sanitize_title s) = sanitize_title s := by
  obtain ⟨hfix, hmd⟩ := sanitize_fixpoint s
  rw [sanitize_title_def (sanitize_title s), hfix, hmd]
  simp

/-! ## JSON values

The embedded model payload is represented at the level of JSON values; its
"raw text" is the value's canonical serde_json rendering (`render`).  A
payload that is not even syntactically valid JSON is outside this model; the
claims exercise structurally valid payloads of the wrong shape. -/

/-- `'{'`, written by code point. -/
def lbraceChar : Char := Char.ofNat 123

/-- `'}'`, written by code point. -/
def rbraceChar : Char := Char.ofNat 125

/-- A JSON value (numbers are modelled as integers; the claims only exercise
strings, arrays and objects). -/
inductive Json where
  | null
  | bool (b : Bool)
  | num (n : Int)
  | str (s : List Char)
  | arr (elems : List Json)
  | obj (fields : List (List Char × Json))

def hexDigit (n : Nat) : Char := if n < 10 then Char.ofNat (48 + n) else Char.ofNat (87 + n)

/-- serde_json string escaping: quote, backslash, and control characters. -/
def escapeChar (c : Char) : List Char :=
  if c = dqChar then [bsChar, dqChar]
  else if c = bsChar then [bsChar, bsChar]
  else if c.toNat = 10 then [bsChar, 'n']
  else if c.toNat = 9 then [bsChar, 't']
  else if c.toNat = 13 then [bsChar, 'r']
  else if c.toNat = 8 then [bsChar, 'b']
  else if c.toNat = 12 then [bsChar, 'f']
  else if c.toNat < 32 then
    [bsChar, 'u', '0', '0', hexDigit (c.toNat / 16), hexDigit (c.toNat % 16)]
  else [c]

def renderString (s : List Char) : List Char :=
  dqChar :: (s.map escapeChar).flatten ++ [dqChar]

mutual

/-- Compact serde_json rendering of a JSON value — the raw text of a payload. -/
def render : Json → List Char
  | .null => "null".toList
  | .bool true => "true".toList
  | .bool false => "false".toList
  | .num n => (toString n).toList
  | .str s => renderString s
  | .arr xs => '[' :: renderElems xs ++ [']']
  | .obj fs => lbraceChar :: renderFields fs ++ [rbraceChar]

def renderElems : List Json → List Char
  | [] => []
  | [x] => render x
  | x :: xs => render x ++ ',' :: renderElems xs

def renderFields : List (List Char × Json) → List Char
  | [] => []
  | [(k, v)] => renderString k ++ ':' :: render v
  | (k, v) :: fs => renderString k ++ ':' :: render v ++ ',' :: renderFields fs

end

/-! ## The LlmResponse shape and its serde deserialization -/

/-- `LlmResponse` (src/providers/mod.rs lines 8-14): the structured result —
title, content, and tags (which serde defaults to empty when absent). -/
structure LlmResponse where
  title : List Char
  content : List Char
  tags : List (List Char)
deriving DecidableEq

def titleKey : List Char := "title".toList

def contentKey : List Char := "content".toList

def tagsKey : List Char := "tags".toList

/-- All values bound to `name` in an object's field list. -/
def getField (name : List Char) (fields : List (List Char × Json)) : List Json :=
  (fields.filter fun f => f.1 = name).map fun f => f.2

def asStringList : List Json → Option (List (List Char))
  | [] => some []
  | .str s :: xs =>
    match asStringList xs with
    | some rest => some (s :: rest)
    | none => none
  | _ => none

/-- serde deserialization of `LlmResponse` from a JSON value (the
`#[derive(Deserialize)]` on src/providers/mod.rs line 8 with
`#[serde(default)]` on `tags`): the value must be an object; `title` and
`content` must each appear exactly once, bound to a string; `tags`, when
present (once), must be an array of strings, and defaults to `[]` when
absent; other fields are ignored; a duplicated known field is an error.
Note there is no emptiness or length validation of any kind. -/
def parseLlmResponse (j : Json) : Option LlmResponse :=
  match j with
  | .obj fields =>
    match getField titleKey fields, getField contentKey fields, getField tagsKey fields with
    | [.str t], [.str c], tagsF =>
      match tagsF with
      | [] => some ⟨t, c, []⟩
      | [.arr xs] =>
        match asStringList xs with
        | some tags => some ⟨t, c, tags⟩
        | none => none
      | _ => none
    | _, _, _ => none
  | _ => none

/-! ## Errors of the generation contract -/

/-- The error taxonomy of the drivers (anyhow messages in the source, spec §7):
`unreachable` ~ BackendUnreachable, `rejected` ~ BackendRejected,
`malformedOuter`/`malformedPayload` ~ MalformedResponse (outer reply vs
embedded payload), `emptyCompletion` ~ EmptyCompletion, and
`missingCredential` ~ MissingCredential. -/
inductive GenError where
  | unreachable (message : List Char)
  | rejected (status : Nat) (body : List Char)
  | malformedOuter (message : List Char)
  | malformedPayload (message : List Char)
  | emptyCompletion (message : List Char)
  | missingCredential (message : List Char)
deriving DecidableEq

/-- The `with_context` message attached when the embedded payload fails to
deserialize: `"Failed to parse LLM JSON response: {payload}"`
(src/providers/ollama.rs line 99, src/providers/openai.rs line 143). -/
def parseFailMsg (raw : List Char) : List Char :=
  "Failed to parse LLM JSON response: ".toList ++ raw

/-- reqwest `StatusCode::is_success`: 2xx. -/
def statusIsSuccess (s : Nat) : Bool := 200 ≤ s && s < 300

/-! ## Configuration data (src/config.rs lines 6-86) -/

structure OllamaConfig where
  base_url : List Char
  model : List Char
deriving DecidableEq

structure OpenAiConfig where
  base_url : List Char
  model : List Char
  api_key : Option (List Char)
deriving DecidableEq

structure Config where
  provider : List Char
  ollama : OllamaConfig
  openai : OpenAiConfig
deriving DecidableEq

def default_provider : List Char := "ollama".toList

def default_ollama_url : List Char := "http://localhost:11434".toList

def default_ollama_model : List Char := "llama3.2".toList

def default_openai_url : List Char := "https://api.openai.com/v1".toList

def default_openai_model : List Char := "gpt-4o-mini".toList

def OllamaConfig.default : OllamaConfig := ⟨default_ollama_url, default_ollama_model⟩

def OpenAiConfig.default : OpenAiConfig := ⟨default_openai_url, default_openai_model, none⟩

def Config.default : Config := ⟨default_provider, OllamaConfig.default, OpenAiConfig.default⟩

deriving instance DecidableEq for Except

/-! ## Backend drivers

Each driver's `generate` is embedded as a pure function of its configuration
and of the observable outcome of its single HTTP exchange. -/

/-- The observable outcome of the HTTP exchange of `OllamaProvider::generate`
(src/providers/ollama.rs lines 79-99): whether `send()` succeeded, the
response status, the body text read on a non-success status
(`text().unwrap_or_default()`), and — for a success status — the JSON value
carried as a string in the `response` field of the outer reply (`none` when
the outer reply does not deserialize into `OllamaResponse`). -/
structure OllamaExchange where
  connected : Bool
  status : Nat
  errorBody : List Char
  payload : Option Json

/-- The observable outcome of the HTTP exchange of `OpenAiProvider::generate`
(src/providers/openai.rs lines 114-139): as for Ollama, but a successful outer
parse yields the list of choices, each carrying its `message.content` payload
as a JSON value. -/
structure OpenAiExchange where
  connected : Bool
  status : Nat
  errorBody : List Char
  choices : Option (List Json)

/-- `OllamaProvider::generate` (src/providers/ollama.rs lines 65-109), after
the request is built: connection failure, non-success status, outer-reply
parse failure, embedded-payload parse failure (with the raw payload in the
message), and on success the sanitized structured result.  No validation
beyond deserialization is performed. -/
def ollamaGenerate (cfg : OllamaConfig) (ex : OllamaExchange) : Except GenError LlmResponse :=
  if !ex.connected then
    .error (.unreachable ("Failed to connect to Ollama at ".toList ++ cfg.base_url))
  else if !statusIsSuccess ex.status then
    .error (.rejected ex.status ex.errorBody)
  else
    match ex.payload with
    | none => .error (.malformedOuter "Failed to parse Ollama response".toList)
    | some payload =>
      match parseLlmResponse payload with
      | none => .error (.malformedPayload (parseFailMsg (render payload)))
      | some r => .ok ⟨sanitize_title r.title, r.content, r.tags⟩

/-- The cloud driver: holds its configuration (src/providers/openai.rs
lines 7-10; the HTTP client holds no state relevant to the contract). -/
structure OpenAiProvider where
  config : OpenAiConfig
deriving DecidableEq

/-- `OpenAiProvider::new` (src/providers/openai.rs lines 48-57): fails with
MissingCredential when `api_key` is absent, before any network access (the
construction performs none); otherwise returns the provider. -/
def OpenAiProvider.new (config : OpenAiConfig) : Except GenError OpenAiProvider :=
  if config.api_key.isNone then
    .error (.missingCredential
      "OpenAI API key not configured. Set OPENAI_API_KEY environment variable or add to config".toList)
  else .ok ⟨config⟩

/-- `OpenAiProvider::is_available` (src/providers/openai.rs lines 207-209):
the probe only checks that the credential is present. -/
def OpenAiProvider.is_available (p : OpenAiProvider) : Bool := p.config.api_key.isSome

/-- `OpenAiProvider::generate` (src/providers/openai.rs lines 97-153):
credential re-check, connection failure, non-success status, outer parse
failure, zero choices, embedded-payload parse failure (with the raw payload
in the message), and on success the sanitized structured result. -/
def openaiGenerate (cfg : OpenAiConfig) (ex : OpenAiExchange) : Except GenError LlmResponse :=
  match cfg.api_key with
  | none => .error (.missingCredential "OpenAI API key not set".toList)
  | some _ =>
    if !ex.connected then
      .error (.unreachable "Failed to connect to OpenAI API".toList)
    else if !statusIsSuccess ex.status then
      .error (.rejected ex.status ex.errorBody)
    else
      match ex.choices with
      | none => .error (.malformedOuter "Failed to parse OpenAI response".toList)
      | some choices =>
        match choices.head? with
        | none => .error (.emptyCompletion "No response from OpenAI".toList)
        | some payload =>
          match parseLlmResponse payload with
          | none => .error (.malformedPayload (parseFailMsg (render payload)))
          | some r => .ok ⟨sanitize_title r.title, r.content, r.tags⟩

/-! ## The orchestrator (src/main.rs lines 109-140) -/

def openaiName : List Char := "openai".toList

/-- Outcome of the provider-selection/probe/generate segment of `main`:
either an abort before generation (unknown provider, construction failure,
cloud probe failure) or a generation attempt, with `warned` recording whether
the advisory local-probe warning was printed. -/
inductive MainOutcome where
  | unknownProvider (provider : List Char)
  | constructionFailed (e : GenError)
  | cloudUnavailable
  | generated (warned : Bool) (result : Except GenError LlmResponse)

/-- The `"openai"` arm of `main`'s provider match after construction succeeds
(src/main.rs lines 119-127): a failed availability probe returns an error
before `generate` is ever invoked; otherwise generation proceeds. -/
def openaiBranch (p : OpenAiProvider) (ex : OpenAiExchange) : MainOutcome :=
  if !p.is_available then .cloudUnavailable
  else .generated false (openaiGenerate p.config ex)

/-- The provider-selection / probe / generate segment of `main`
(src/main.rs lines 109-140), as a function of the resolved configuration, the
outcome `ollamaAvail` of the Ollama liveness probe (a network observation,
src/providers/ollama.rs lines 111-121), and the abstracted exchanges.  For
`"ollama"` a false probe only triggers the `eprintln!` warnings (recorded in
`warned`) and generation proceeds anyway; for `"openai"` a construction
failure is surfaced by `?` and a false probe aborts via `openaiBranch`. -/
def runPipeline (cfg : Config) (ollamaAvail : Bool) (oex : OllamaExchange)
    (aex : OpenAiExchange) : MainOutcome :=
  if cfg.provider = default_provider then
    .generated (!ollamaAvail) (ollamaGenerate cfg.ollama oex)
  else if cfg.provider = openaiName then
    match OpenAiProvider.new cfg.openai with
    | .error e => .constructionFailed e
    | .ok p => openaiBranch p aex
  else .unknownProvider cfg.provider

/-! ## Configuration resolution (src/config.rs lines 88-143) -/

/-- The ambient inputs of `Config::load`: the filesystem (existence, read,
and the outcome of `toml::from_str` on a file's content — the TOML grammar
itself is kept abstract), the home directory resolution, and the credential
environment variables. -/
structure Environment where
  pathExists : List Char → Bool
  readFile : List Char → Option (List Char)
  parseToml : List Char → Option Config
  homeDir : Option (List Char)
  openaiApiKey : Option (List Char)
  anthropicApiKey : Option (List Char)

/-- Errors of `Config::load`: `readFailed` ~ "Failed to read config from …",
`parseFailed` ~ ConfigParseError ("Failed to parse config TOML"),
`homeFailed` ~ HomeResolutionError ("Could not determine home directory"). -/
inductive ConfigError where
  | readFailed (path : List Char)
  | parseFailed
  | homeFailed
deriving DecidableEq

def localConfigPath : List Char := ".journal-ai.toml".toList

def globalConfigRelative : List Char := "/.config/journal-ai/config.toml".toList

/-- `Config::load_api_keys` (src/config.rs lines 125-137): layer the
environment credential in only when the loaded file carried none.  (The
`ANTHROPIC_API_KEY` probe on lines 133-136 binds nothing and is a no-op.) -/
def Config.load_api_keys (cfg : Config) (env : Environment) : Config :=
  if cfg.openai.api_key.isNone then
    match env.openaiApiKey with
    | some key => { cfg with openai := { cfg.openai with api_key := some key } }
    | none => cfg
  else cfg

/-- Read and parse one config file, then layer in environment credentials
(the repeated body of `Config::load`, src/config.rs lines 93-98, 110-115). -/
def loadFromFile (env : Environment) (path : List Char) : Except ConfigError Config :=
  match env.readFile path with
  | none => .error (.readFailed path)
  | some content =>
    match env.parseToml content with
    | none => .error .parseFailed
    | some cfg => .ok (cfg.load_api_keys env)

/-- `Config::default_config_path` (src/config.rs lines 139-143). -/
def default_config_path (env : Environment) : Except ConfigError (List Char) :=
  match env.homeDir with
  | none => .error .homeFailed
  | some home => .ok (home ++ globalConfigRelative)

/-- The `for path in config_paths` loop of `Config::load` (src/config.rs
lines 108-117) followed by the defaults fallback (lines 119-122). -/
def loadFirst (env : Environment) : List (List Char) → Except ConfigError Config
  | [] => .ok (Config.default.load_api_keys env)
  | p :: rest => if env.pathExists p then loadFromFile env p else loadFirst env rest

/-- `Config::load` (src/config.rs lines 89-123).  Note the `?` on
`Self::default_config_path()?` fires while the `config_paths` vector is being
built (line 105), before the loop ever tests whether the project-local file
exists. -/
def Config.load (env : Environment) (configPath : Option (List Char)) :
    Except ConfigError Config :=
  let viaStandard : Except ConfigError Config :=
    match default_config_path env with
    | .error e => .error e
    | .ok globalPath => loadFirst env [localConfigPath, globalPath]
  match configPath with
  | some path => if env.pathExists path then loadFromFile env path else viaStandard
  | none => viaStandard

/-! ## Concrete fixtures used by counterexamples and witnesses -/

/-- A structurally well-shaped payload with empty title, empty content, and
four tags — shaped exactly as C1 says must be rejected. -/
def badPayload : Json :=
  .obj [(titleKey, .str []), (contentKey, .str []),
    (tagsKey, .arr [.str "a".toList, .str "b".toList, .str "c".toList, .str "d".toList])]

def fourTags : List (List Char) := ["a".toList, "b".toList, "c".toList, "d".toList]

/-- A cloud configuration with a credential present. -/
def keyedOpenAiConfig : OpenAiConfig :=
  ⟨default_openai_url, default_openai_model, some "test-key-123".toList⟩

/-- An Ollama exchange that transports `badPayload` successfully. -/
def okOllamaEx : OllamaExchange := ⟨true, 200, [], some badPayload⟩

/-- An OpenAI exchange whose single choice carries `badPayload`. -/
def okOpenAiEx : OpenAiExchange := ⟨true, 200, [], some [badPayload]⟩

/-- An environment with no home directory but an existing, readable,
parseable project-local config file. -/
def envHomeless : Environment :=
  { pathExists := fun p => decide (p = localConfigPath)
  , readFile := fun _ => some "stub".toList
  , parseToml := fun _ => some Config.default
  , homeDir := none
  , openaiApiKey := none
  , anthropicApiKey := none }

/-- An environment with a home directory, no config files anywhere, and no
credential variables. -/
def envEmpty : Environment :=
  { pathExists := fun _ => false
  , readFile := fun _ => none
  , parseToml := fun _ => none
  , homeDir := some "/home/user".toList
  , openaiApiKey := none
  , anthropicApiKey := none }

/-- `envEmpty`, plus `OPENAI_API_KEY` set. -/
def envWithKey : Environment :=
  { pathExists := fun _ => false
  , readFile := fun _ => none
  , parseToml := fun _ => none
  , homeDir := some "/home/user".toList
  , openaiApiKey := some "test-key-123".toList
  , anthropicApiKey := none }

/-! ## Claim theorems: drivers -/

/-- C1, counterexample: a successfully-transported payload with an empty
title, an empty content AND four tags deserializes fine and both drivers
return it as a `GenerationResult` (title sanitized to `".md"`) instead of
rejecting it — the structural-shape validation the claim describes does not
exist in either driver. -/
theorem C1_counterexample :
    parseLlmResponse badPayload = some ⟨[], [], fourTags⟩ ∧
      ollamaGenerate OllamaConfig.default okOllamaEx =
        .ok ⟨".md".toList, [], fourTags⟩ ∧
      openaiGenerate keyedOpenAiConfig okOpenAiEx =
        .ok ⟨".md".toList, [], fourTags⟩ := by
  refine ⟨by decide, by decide, by decide⟩

/-- C1 (amended): for every backend driver, the only gate on a
successfully-transported payload is serde deserialization into the
`LlmResponse` shape (`title`/`content` present as strings, `tags` a string
array when present): every payload that deserializes — including ones with
empty title, empty content, or more than 3 tags — yields a returned
`GenerationResult` with sanitized title, never an error.  Neither driver
validates non-emptiness or the tag count. -/
theorem C1_shape_parse_is_only_gate (ocfg : OllamaConfig) (burl model key : List Char)
    (st : Nat) (eb : List Char) (payload : Json) (r : LlmResponse) (rest : List Json)
    (hst : statusIsSuccess st = true)
    (hp : parseLlmResponse payload = some r) :
    ollamaGenerate ocfg ⟨true, st, eb, some payload⟩ =
      .ok ⟨sanitize_title r.title, r.content, r.tags⟩ ∧
    openaiGenerate ⟨burl, model, some key⟩ ⟨true, st, eb, some (payload :: rest)⟩ =
      .ok ⟨sanitize_title r.title, r.content, r.tags⟩ := by
  constructor
  · simp [ollamaGenerate, hst, hp]
  · simp [openaiGenerate, hst, hp]

/-- C1 witness: the amended theorem applied to the concrete rejected-by-spec
payload (empty title, empty content, four tags). -/
theorem C1_shape_parse_is_only_gate_witness :
    statusIsSuccess 200 = true ∧
      parseLlmResponse badPayload = some ⟨[], [], fourTags⟩ ∧
      ollamaGenerate OllamaConfig.default ⟨true, 200, [], some badPayload⟩ =
        .ok ⟨sanitize_title [], [], fourTags⟩ :=
  ⟨by decide, by decide,
    (C1_shape_parse_is_only_gate OllamaConfig.default default_openai_url
      default_openai_model "test-key-123".toList 200 [] badPayload ⟨[], [], fourTags⟩ []
      (by decide) (by decide)).1⟩

/-- C9: for both drivers, a success-status response whose embedded JSON does
not deserialize into the `LlmResponse` shape makes `generate` fail with the
malformed-payload error, and the error message contains the raw payload text
(here: as a suffix of the `with_context` message). -/
theorem C9_malformed_payload_error (ocfg : OllamaConfig) (burl model key : List Char)
    (st : Nat) (eb : List Char) (payload : Json) (rest : List Json)
    (hst : statusIsSuccess st = true)
    (hp : parseLlmResponse payload = none) :
    ollamaGenerate ocfg ⟨true, st, eb, some payload⟩ =
      .error (.malformedPayload (parseFailMsg (render payload))) ∧
    openaiGenerate ⟨burl, model, some key⟩ ⟨true, st, eb, some (payload :: rest)⟩ =
      .error (.malformedPayload (parseFailMsg (render payload))) ∧
    render payload <:+ parseFailMsg (render payload) := by
  refine ⟨?_, ?_, ?_⟩
  · simp [ollamaGenerate, hst, hp]
  · simp [openaiGenerate, hst, hp]
  · exact List.suffix_append _ _

/-- C9 witness: the payload `{}` is valid JSON but misses the required
fields; both drivers reject it with the message carrying the raw `{}`. -/
theorem C9_malformed_payload_error_witness :
    statusIsSuccess 200 = true ∧
      parseLlmResponse (Json.obj []) = none ∧
      ollamaGenerate OllamaConfig.default ⟨true, 200, [], some (Json.obj [])⟩ =
        .error (.malformedPayload (parseFailMsg (render (Json.obj [])))) :=
  ⟨by decide, by decide,
    (C9_malformed_payload_error OllamaConfig.default default_openai_url
      default_openai_model "test-key-123".toList 200 [] (Json.obj []) []
      (by decide) (by decide)).1⟩

/-- C5: constructing the cloud driver with no credential fails with
`MissingCredential`; with a credential it succeeds.  The embedded `new` has no
access to any exchange: construction involves no network, so the failure
occurs before any network access could be attempted. -/
theorem C5_missing_credential_fail_fast (cfg : OpenAiConfig) :
    (cfg.api_key = none →
      OpenAiProvider.new cfg = .error (.missingCredential
        "OpenAI API key not configured. Set OPENAI_API_KEY environment variable or add to config".toList)) ∧
    (∀ k, cfg.api_key = some k → OpenAiProvider.new cfg = .ok ⟨cfg⟩) := by
  constructor
  · intro h
    simp [OpenAiProvider.new, h]
  · intro k h
    simp [OpenAiProvider.new, h]

/-- C5 witness: the default cloud configuration (no key) is rejected, the
keyed one accepted. -/
theorem C5_missing_credential_fail_fast_witness :
    OpenAiProvider.new OpenAiConfig.default = .error (.missingCredential
      "OpenAI API key not configured. Set OPENAI_API_KEY environment variable or add to config".toList) ∧
    OpenAiProvider.new keyedOpenAiConfig = .ok ⟨keyedOpenAiConfig⟩ :=
  ⟨(C5_missing_credential_fail_fast OpenAiConfig.default).1 rfl,
    (C5_missing_credential_fail_fast keyedOpenAiConfig).2 "test-key-123".toList rfl⟩

/-! ## Claim theorems: orchestrator -/

/-- C8: the orchestrator's probe asymmetry.  Local backend: when the Ollama
probe comes back false, `main` only prints warnings (`warned = true`) and the
outcome still carries the result of invoking `generate`.  Cloud backend: in
the post-construction cloud arm, a false probe aborts with an error
(`cloudUnavailable`) — an outcome carrying no generation attempt at all. -/
theorem C8_probe_asymmetry :
    (∀ (cfg : Config) (oex : OllamaExchange) (aex : OpenAiExchange),
      cfg.provider = default_provider →
        runPipeline cfg false oex aex =
          .generated true (ollamaGenerate cfg.ollama oex)) ∧
    (∀ (p : OpenAiProvider) (aex : OpenAiExchange),
      p.is_available = false → openaiBranch p aex = .cloudUnavailable) := by
  constructor
  · intro cfg oex aex hprov
    simp [runPipeline, hprov]
  · intro p aex h
    simp [openaiBranch, h]

/-- C8 witness: the default configuration selects Ollama; with a false probe
the pipeline still generates (with the warning recorded), while a cloud
provider holding no credential is gated off in the cloud arm. -/
theorem C8_probe_asymmetry_witness :
    runPipeline Config.default false okOllamaEx okOpenAiEx =
      .generated true (ollamaGenerate OllamaConfig.default okOllamaEx) ∧
    openaiBranch ⟨OpenAiConfig.default⟩ okOpenAiEx = .cloudUnavailable :=
  ⟨(C8_probe_asymmetry).1 Config.default okOllamaEx okOpenAiEx rfl,
    (C8_probe_asymmetry).2 ⟨OpenAiConfig.default⟩ okOpenAiEx rfl⟩

/-- C10: every successfully constructed cloud driver reports itself available
(`new` guarantees the credential, `is_available` checks only the credential);
consequently no run of the pipeline can ever reach the cloud-unavailability
abort. -/
theorem C10_cloud_unavailable_unreachable :
    (∀ (cfg : OpenAiConfig) (p : OpenAiProvider),
      OpenAiProvider.new cfg = .ok p → p.is_available = true) ∧
    (∀ (cfg : Config) (avail : Bool) (oex : OllamaExchange) (aex : OpenAiExchange),
      runPipeline cfg avail oex aex ≠ MainOutcome.cloudUnavailable) := by
  have hav : ∀ (cfg : OpenAiConfig) (p : OpenAiProvider),
      OpenAiProvider.new cfg = .ok p → p.is_available = true := by
    intro cfg p hnew
    unfold OpenAiProvider.new at hnew
    split at hnew
    · cases hnew
    · rename_i h
      cases hnew
      rcases hk : cfg.api_key with _ | k
      · rw [hk] at h; simp at h
      · simp [OpenAiProvider.is_available, hk]
  refine ⟨hav, ?_⟩
  intro cfg avail oex aex
  unfold runPipeline
  split
  · simp
  · split
    · split
      · simp
      · rename_i p hnew
        unfold openaiBranch
        rw [hav _ p hnew]
        simp
    · simp

/-- C10 witness: a keyed configuration constructs successfully and the
constructed driver's probe returns true. -/
theorem C10_cloud_unavailable_unreachable_witness :
    OpenAiProvider.new keyedOpenAiConfig = .ok ⟨keyedOpenAiConfig⟩ ∧
    OpenAiProvider.is_available ⟨keyedOpenAiConfig⟩ = true :=
  ⟨by decide,
    (C10_cloud_unavailable_unreachable).1 keyedOpenAiConfig ⟨keyedOpenAiConfig⟩ (by decide)⟩

/-! ## Claim theorems: configuration resolution -/

/-- C4, counterexample: with the project-local config file present, readable
and parseable, but the home directory undeterminable and no explicit
override, `Config::load` fails with the home-resolution error instead of
succeeding from the project-local file — because `default_config_path()?` is
evaluated while building the candidate vector, before the loop tests
`.journal-ai.toml`. -/
theorem C4_counterexample :
    envHomeless.pathExists localConfigPath = true ∧
      envHomeless.homeDir = none ∧
      Config.load envHomeless none = .error ConfigError.homeFailed :=
  ⟨by decide, rfl, rfl⟩

/-- C4 (amended): config resolution fails with `HomeResolutionError`
whenever the home directory cannot be determined and no existing explicit
override path was supplied — even when the project-local config file exists.
Only an explicit override that exists bypasses home resolution. -/
theorem C4_home_failure_preempts_local (env : Environment)
    (configPath : Option (List Char)) (hhome : env.homeDir = none)
    (hexp : configPath = none ∨
      ∃ p, configPath = some p ∧ env.pathExists p = false) :
    Config.load env configPath = .error ConfigError.homeFailed := by
  rcases hexp with rfl | ⟨p, rfl, hp⟩
  · simp [Config.load, default_config_path, hhome]
  · simp [Config.load, default_config_path, hhome, hp]

/-- C4 witness: the amended theorem at the homeless environment. -/
theorem C4_home_failure_preempts_local_witness :
    Config.load envHomeless none = .error ConfigError.homeFailed :=
  C4_home_failure_preempts_local envHomeless none rfl (Or.inl rfl)

/-- C6: whenever the loaded configuration carries no cloud credential and the
environment variable is set, the credential-layering step resolves the cloud
credential to exactly the environment value. -/
theorem C6_env_credential_layering (cfg : Config) (env : Environment) (key : List Char)
    (hc : cfg.openai.api_key = none) (he : env.openaiApiKey = some key) :
    (cfg.load_api_keys env).openai.api_key = some key := by
  simp [Config.load_api_keys, hc, he]

/-- C6 witness: the default configuration (no key) against an environment
with `OPENAI_API_KEY` set. -/
theorem C6_env_credential_layering_witness :
    (Config.default.load_api_keys envWithKey).openai.api_key =
      some "test-key-123".toList :=
  C6_env_credential_layering Config.default envWithKey "test-key-123".toList rfl rfl

/-- C7: when the home directory resolves, no config file exists at the
explicit (if any), project-local, or user-global locations, and no
environment credential is set, `Config::load` yields the built-in defaults:
provider `"ollama"` and no cloud credential. -/
theorem C7_defaults_when_nothing_found (env : Environment) (home : List Char)
    (configPath : Option (List Char))
    (hhome : env.homeDir = some home)
    (hlocal : env.pathExists localConfigPath = false)
    (hglobal : env.pathExists (home ++ globalConfigRelative) = false)
    (hkey : env.openaiApiKey = none)
    (hexp : configPath = none ∨
      ∃ p, configPath = some p ∧ env.pathExists p = false) :
    Config.load env configPath = .ok Config.default ∧
      Config.default.provider = "ollama".toList ∧
      Config.default.openai.api_key = none := by
  refine ⟨?_, rfl, rfl⟩
  rcases hexp with rfl | ⟨p, rfl, hp⟩
  · simp [Config.load, default_config_path, loadFirst, Config.load_api_keys,
      hhome, hlocal, hglobal, hkey]
  · simp [Config.load, default_config_path, loadFirst, Config.load_api_keys,
      hhome, hlocal, hglobal, hkey, hp]

/-- C7 witness: the empty environment. -/
theorem C7_defaults_when_nothing_found_witness :
    Config.load envEmpty none = .ok Config.default ∧
      Config.default.provider = "ollama".toList ∧
      Config.default.openai.api_key = none :=
  C7_defaults_when_nothing_found envEmpty "/home/user".toList none rfl rfl rfl rfl
    (Or.inl rfl)

end JournalAi
